import Mathlib

/-
Verification of the differential-test and load harness in test.py
(XRPLF/clio). Each Python function used by the claims is shallowly
embedded as an executable Lean definition; theorems settle the claims.
-/

namespace Clio

/-- JSON-like values appearing in the responses the harness compares.
Python values are untyped; the harness only ever tests them for equality
and, in one place, for being a dict, so a shallow one-level universe
suffices for the embedding. -/
inductive Value where
  | int (n : Int)
  | str (s : String)
  | dict (fields : List (String × String))
deriving DecidableEq

/-- A Python dict with string keys, in insertion order. -/
abbrev PyDict := List (String × Value)

/-- Lookup in a Python dict: the value stored at the key, if present. -/
def pyLookup (d : PyDict) (k : String) : Option Value :=
  match d with
  | [] => none
  | (k', v) :: rest => if k' = k then some v else pyLookup rest k

/-- Embedding of isSubset (test.py lines 17-25): iterates the keys of sub
in order, skipping the key "deserialization_time_microsecond", and returns
False at the first key that is absent from sup or maps to a different
value; returns True if the iteration completes. -/
def isSubset (sub sup : PyDict) : Bool :=
  match sub with
  | [] => true
  | (k, v) :: rest =>
    if k = "deserialization_time_microsecond" then isSubset rest sup
    else
      match pyLookup sup k with
      | none => false
      | some w => if v = w then isSubset rest sup else false

/-- Outcome of compare_offer: ok models the final return True; mismatch k
models the return False after printing the mismatching field k; keyError k
models the KeyError Python raises when a source key is absent from the
target dict. -/
inductive OfferCmp where
  | ok
  | mismatch (k : String)
  | keyError (k : String)
deriving DecidableEq

/-- Embedding of compare_offer (test.py lines 544-552), instrumented with
the list of non-excluded source fields the loop actually reads before
returning, so that short-circuiting is observable. The loop skips the key
"deserialization_time_microseconds" and returns False at the first field
whose target value differs from the source value. -/
def compare_offer_go (tgt : PyDict) : PyDict → List String → OfferCmp × List String
  | [], tr => (.ok, tr)
  | (k, v) :: rest, tr =>
    if k = "deserialization_time_microseconds" then compare_offer_go tgt rest tr
    else
      match pyLookup tgt k with
      | none => (.keyError k, tr ++ [k])
      | some w => if w = v then compare_offer_go tgt rest (tr ++ [k]) else (.mismatch k, tr ++ [k])

/-- Verdict of compare_offer on a source and target dict. -/
def compare_offer (aldous p2p : PyDict) : OfferCmp :=
  (compare_offer_go p2p aldous []).1

/-- The non-excluded source fields compare_offer examines before returning. -/
def compare_offerTrace (aldous p2p : PyDict) : List String :=
  (compare_offer_go p2p aldous []).2

/-- The source object of the subset-compare example: a=1, b=2, c=3. -/
def demoOfferSrc : PyDict :=
  [("a", .int 1), ("b", .int 2), ("c", .int 3)]

/-- The target object of the subset-compare example: a=1, b=9, c=3 and an
extra field d. -/
def demoOfferTgt : PyDict :=
  [("a", .int 1), ("b", .int 9), ("c", .int 3), ("d", .str "extra")]

/-- Helper: the verdict component of compare_offer_go does not depend on
the trace accumulator. -/
theorem compare_offer_go_fst_ok_iff (tgt : PyDict) :
    ∀ (src : PyDict) (tr : List String),
      (compare_offer_go tgt src tr).1 = OfferCmp.ok ↔
        ∀ p ∈ src, p.1 ≠ "deserialization_time_microseconds" → pyLookup tgt p.1 = some p.2 := by
  intro src
  induction src with
  | nil => intro tr; simp [compare_offer_go]
  | cons hd rest ih =>
    intro tr
    obtain ⟨k, v⟩ := hd
    by_cases hk : k = "deserialization_time_microseconds"
    · simp only [compare_offer_go, if_pos hk, ih]
      constructor
      · rintro h p hp hne
        rcases List.mem_cons.mp hp with rfl | hmem
        · exact absurd hk hne
        · exact h p hmem hne
      · intro h p hp hne
        exact h p (List.mem_cons_of_mem _ hp) hne
    · simp only [compare_offer_go, if_neg hk]
      cases hfind : pyLookup tgt k with
      | none =>
        simp only [OfferCmp.keyError, reduceCtorEq, false_iff]
        intro h
        have := h (k, v) (List.mem_cons_self _ _) hk
        rw [hfind] at this
        exact Option.noConfusion this
      | some w =>
        dsimp only
        by_cases hw : w = v
        · rw [if_pos hw, ih]
          constructor
          · rintro h p hp hne
            rcases List.mem_cons.mp hp with rfl | hmem
            · simp [hfind, hw]
            · exact h p hmem hne
          · intro h p hp hne
            exact h p (List.mem_cons_of_mem _ hp) hne
        · rw [if_neg hw]
          simp only [reduceCtorEq, false_iff]
          intro h
          have h2 := h (k, v) (List.mem_cons_self _ _) hk
          simp only [hfind, Option.some.injEq] at h2
          exact hw h2

/-- C1 counterexample: on source a=1, b=2, c=3 against target a=1, b=9,
c=3, d=extra, compare_offer short-circuits: it returns the Mismatch
verdict at field b having examined only a and b, and never examines field
c, contradicting the claim that every non-excluded source field is
examined and every mismatch accumulated. -/
theorem c1_counterexample :
    compare_offer demoOfferSrc demoOfferTgt = OfferCmp.mismatch "b" ∧
    compare_offerTrace demoOfferSrc demoOfferTgt = ["a", "b"] ∧
    "c" ∉ compare_offerTrace demoOfferSrc demoOfferTgt := by
  refine ⟨by decide, by decide, by decide⟩

/-- C1 (amended): the structural-subset compare stops at the first
missing or differing non-excluded field and returns a bare verdict with no
accumulated mismatch list; the verdict is Match exactly when every source
field outside the exclusion set is present in the target with an equal
value; on the example source a=1, b=2, c=3 and target a=1, b=9, c=3,
d=extra it reports the single mismatch at b and returns Mismatch without
examining c. -/
theorem c1_amended_claim :
    (∀ src tgt : PyDict,
      compare_offer src tgt = OfferCmp.ok ↔
        ∀ p ∈ src, p.1 ≠ "deserialization_time_microseconds" → pyLookup tgt p.1 = some p.2) ∧
    compare_offer demoOfferSrc demoOfferTgt = OfferCmp.mismatch "b" ∧
    compare_offerTrace demoOfferSrc demoOfferTgt = ["a", "b"] := by
  refine ⟨?_, by decide, by decide⟩
  intro src tgt
  exact compare_offer_go_fst_ok_iff tgt src []

/-- C1 witness: the amended characterization applied at a concrete
matching pair. -/
theorem c1_witness :
    compare_offer [("a", Value.int 1)] [("a", Value.int 1), ("d", Value.str "extra")] = OfferCmp.ok :=
  (c1_amended_claim.1 [("a", Value.int 1)] [("a", Value.int 1), ("d", Value.str "extra")]).mpr
    (by decide)

/-- The candidate-side single-transaction response used by compareTx
(test.py lines 48-65): fields transaction, metadata, ledger_sequence. -/
structure AldousTx where
  transaction : Value
  metadata : Value
  ledger_sequence : Int
deriving DecidableEq

/-- The reference-side single-transaction response used by compareTx,
after unwrapping the result envelope: fields tx, meta, ledger_index. -/
structure P2pTx where
  tx : Value
  meta : Value
  ledger_index : Int
deriving DecidableEq

/-- Whether a value is a Python dict, modelling isinstance(x, dict). -/
def Value.isDict : Value → Bool
  | .dict _ => true
  | _ => false

/-- Embedding of compareTx (test.py lines 48-65): returns False when the
transaction blobs differ; returns False when the metadata differ and the
reference metadata is not a dict; a ledger-sequence difference is only
printed; otherwise returns True. -/
def compareTx (aldous : AldousTx) (p2p : P2pTx) : Bool :=
  if aldous.transaction ≠ p2p.tx then false
  else if aldous.metadata ≠ p2p.meta ∧ p2p.meta.isDict = false then false
  else true

/-- C9: when the transaction blobs and the metadata of the two responses
are equal, compareTx returns True regardless of the ledger sequence
numbers, and the returned Boolean is determined by the transaction and
metadata fields alone (the ledger-sequence fields never influence it). -/
theorem c9_compareTx_ignores_ledger_sequence :
    (∀ (a : AldousTx) (p : P2pTx),
      a.transaction = p.tx → a.metadata = p.meta → compareTx a p = true) ∧
    (∀ (a a' : AldousTx) (p p' : P2pTx),
      a.transaction = a'.transaction → a.metadata = a'.metadata →
      p.tx = p'.tx → p.meta = p'.meta → compareTx a p = compareTx a' p') := by
  constructor
  · intro a p h1 h2
    simp [compareTx, h1, h2]
  · intro a a' p p' h1 h2 h3 h4
    simp only [compareTx, h1, h2, h3, h4]

/-- C9 witness: equal blob and metadata but ledger sequence 5 versus
ledger index 9 still yields True. -/
theorem c9_witness :
    compareTx ⟨Value.str "TXBLOB", Value.str "METABLOB", 5⟩
      ⟨Value.str "TXBLOB", Value.str "METABLOB", 9⟩ = true ∧ (5 : Int) ≠ 9 :=
  ⟨c9_compareTx_ignores_ledger_sequence.1
      ⟨Value.str "TXBLOB", Value.str "METABLOB", 5⟩
      ⟨Value.str "TXBLOB", Value.str "METABLOB", 9⟩ rfl rfl,
    by decide⟩

/-- Per-call slow flag of the load harness (test.py lines 382-395): a call
is reported slow when its round-trip time end - start exceeds 0.1 seconds.
Timestamps are modelled as exact rationals. -/
def slowFlag (latency : ℚ) : Bool := decide (1 / 10 < latency)

/-- Number of calls the harness reports as slow among a list of measured
per-call latencies. -/
def slowCallCount (latencies : List ℚ) : Nat :=
  (latencies.filter slowFlag).length

/-- The summary the load driver prints (test.py lines 1076-1088):
completed equals numRunners times numCalls and throughput is that count
divided by the elapsed wall-clock time. -/
structure LoadReport where
  completed : Nat
  elapsed : ℚ
  throughput : ℚ
deriving DecidableEq

/-- Embedding of the txs-action summary in run (test.py lines 1084-1088). -/
def run_txs_report (numRunners numCalls : Nat) (startT endT : ℚ) : LoadReport :=
  { completed := numRunners * numCalls
    elapsed := endT - startT
    throughput := ((numRunners * numCalls : Nat) : ℚ) / (endT - startT) }

/-- C8: the reported throughput is (workers times calls-per-worker)
divided by the elapsed wall-clock time, and a call is flagged slow exactly
when its latency exceeds the 0.1 second threshold: no call is flagged
when every latency is below the threshold, every call is flagged when
every latency is above it. -/
theorem c8_load_metrics :
    (∀ (w c : Nat) (s t : ℚ),
      (run_txs_report w c s t).throughput = ((w * c : Nat) : ℚ) / (t - s) ∧
      (run_txs_report w c s t).completed = w * c) ∧
    (∀ lats : List ℚ, (∀ l ∈ lats, l < 1 / 10) → slowCallCount lats = 0) ∧
    (∀ lats : List ℚ, (∀ l ∈ lats, 1 / 10 < l) → slowCallCount lats = lats.length) := by
  refine ⟨fun w c s t => ⟨rfl, rfl⟩, ?_, ?_⟩
  · intro lats h
    have : lats.filter slowFlag = [] := by
      apply List.filter_eq_nil_iff.mpr
      intro l hl
      simp only [slowFlag, decide_eq_true_eq]
      exact not_lt_of_lt (h l hl)
    simp [slowCallCount, this]
  · intro lats h
    induction lats with
    | nil => rfl
    | cons l rest ih =>
      have hl : slowFlag l = true := by
        simp only [slowFlag, decide_eq_true_eq]
        exact h l (List.mem_cons_self _ _)
      have hrest := ih (fun x hx => h x (List.mem_cons_of_mem _ hx))
      simp [slowCallCount, List.filter, hl] at hrest ⊢
      exact hrest

/-- C8 witness: four workers of one hundred calls over ten seconds give
throughput 40 calls per second; a run whose latencies sit below the
threshold flags none, one whose latencies sit above flags all. -/
theorem c8_witness :
    (run_txs_report 4 100 0 10).throughput = ((4 * 100 : Nat) : ℚ) / (10 - 0) ∧
    slowCallCount [1 / 20, 1 / 20] = 0 ∧
    slowCallCount [1 / 5, 1 / 2] = 2 :=
  ⟨(c8_load_metrics.1 4 100 0 10).1,
    c8_load_metrics.2.1 [1 / 20, 1 / 20] (by norm_num),
    c8_load_metrics.2.2 [1 / 5, 1 / 2] (by norm_num)⟩

/-- Python list.sort on a totally ordered element type: a stable sort,
modelled by insertion sort with the non-strict order. -/
def pysort {α : Type} [LinearOrder α] (l : List α) : List α :=
  l.insertionSort (· ≤ ·)

/-- Helper: two lists have equal pysort images exactly when one is a
permutation of the other. -/
theorem pysort_eq_iff_perm {α : Type} [LinearOrder α] (l m : List α) :
    pysort l = pysort m ↔ List.Perm l m := by
  constructor
  · intro h
    have h1 : List.Perm l (pysort l) := (List.perm_insertionSort _ l).symm
    have h2 : List.Perm (pysort m) m := List.perm_insertionSort _ m
    rw [h] at h1
    exact h1.trans h2
  · intro h
    exact List.eq_of_perm_of_sorted
      ((List.perm_insertionSort _ l).trans (h.trans (List.perm_insertionSort _ m).symm))
      (List.sorted_insertionSort _ l) (List.sorted_insertionSort _ m)

/-- Embedding of getMinAndMax (test.py lines 207-220) applied to the
ledger sequences extracted from the transactions of a response: folds over
the sequence numbers keeping the least and the greatest, starting from
None. -/
def getMinAndMax (seqs : List Int) : Option Int × Option Int :=
  seqs.foldl
    (fun p seq =>
      (match p.1 with
       | none => some seq
       | some mn => if seq < mn then some seq else some mn,
       match p.2 with
       | none => some seq
       | some mx => if mx < seq then some seq else some mx))
    (none, none)

/-- A candidate-side account_tx transaction record as read by
compareAccountTx (test.py lines 83-86): transaction blob, metadata blob
and ledger sequence. -/
structure AldousAcctTx where
  transaction : String
  metadata : String
  ledger_sequence : Int
deriving DecidableEq

/-- A reference-side account_tx transaction record as read by
compareAccountTx (test.py lines 76-79): tx_blob, meta and ledger_index. -/
structure P2pAcctTx where
  tx_blob : String
  meta : String
  ledger_index : Int
deriving DecidableEq

/-- Embedding of compareAccountTx (test.py lines 67-104): collects the
transaction blobs, the metadata blobs and the ledger sequences of both
sides, sorts each of the six lists, and reports a match exactly when the
three sorted list pairs are equal. The maximum ledger of one side and the
minimum of the other are computed but only printed, never used to filter
the items being compared. -/
def compareAccountTx (aldous : List AldousAcctTx) (p2p : List P2pAcctTx) : Bool :=
  let _maxLedger := (getMinAndMax (aldous.map (·.ledger_sequence))).2
  let _minLedger := (getMinAndMax (p2p.map (·.ledger_index))).1
  let p2pTxns : List String := pysort (p2p.map (·.tx_blob))
  let p2pMetas : List String := pysort (p2p.map (·.meta))
  let p2pLedgerSequences : List Int := pysort (p2p.map (·.ledger_index))
  let aldousTxns : List String := pysort (aldous.map (·.transaction))
  let aldousMetas : List String := pysort (aldous.map (·.metadata))
  let aldousLedgerSequences : List Int := pysort (aldous.map (·.ledger_sequence))
  decide (p2pTxns = aldousTxns ∧ p2pMetas = aldousMetas ∧
    p2pLedgerSequences = aldousLedgerSequences)

/-- Helper: compareAccountTx succeeds exactly when the two sides carry the
same multiset of transaction blobs, of metadata blobs and of ledger
sequences, with no restriction to any overlap window. -/
theorem compareAccountTx_true_iff (aldous : List AldousAcctTx) (p2p : List P2pAcctTx) :
    compareAccountTx aldous p2p = true ↔
      List.Perm (p2p.map (·.tx_blob)) (aldous.map (·.transaction)) ∧
      List.Perm (p2p.map (·.meta)) (aldous.map (·.metadata)) ∧
      List.Perm (p2p.map (·.ledger_index)) (aldous.map (·.ledger_sequence)) := by
  simp only [compareAccountTx, decide_eq_true_eq, pysort_eq_iff_perm]

/-- The candidate side of the range-skew example: coverage 100 to 200. -/
def c5Aldous : List AldousAcctTx :=
  [⟨"tx100", "meta100", 100⟩, ⟨"tx150", "meta150", 150⟩, ⟨"tx200", "meta200", 200⟩]

/-- The reference side of the range-skew example: coverage 150 to 250,
agreeing with the candidate exactly on the overlap 150 to 200. -/
def c5P2p : List P2pAcctTx :=
  [⟨"tx150", "meta150", 150⟩, ⟨"tx200", "meta200", 200⟩, ⟨"tx250", "meta250", 250⟩]

/-- Modelled from the spec: the overlap-window filter that the claim says
the engine applies to the candidate side before comparing; absent from
the source, defined here only to state the claim. -/
def specWindowA (lo hi : Int) (l : List AldousAcctTx) : List AldousAcctTx :=
  l.filter (fun x => decide (lo ≤ x.ledger_sequence) && decide (x.ledger_sequence ≤ hi))

/-- Modelled from the spec: the overlap-window filter on the reference
side; absent from the source, defined here only to state the claim. -/
def specWindowP (lo hi : Int) (l : List P2pAcctTx) : List P2pAcctTx :=
  l.filter (fun x => decide (lo ≤ x.ledger_index) && decide (x.ledger_index ≤ hi))

/-- C5 counterexample: coverage of the two sides is 100 to 200 and 150 to
250; inside the overlap window 150 to 200 the two sides agree exactly
(blobs, metadata and sequences are permutations of each other), yet
compareAccountTx reports a mismatch, because it never discards the items
outside the window. -/
theorem c5_counterexample :
    getMinAndMax (c5Aldous.map (·.ledger_sequence)) = (some 100, some 200) ∧
    getMinAndMax (c5P2p.map (·.ledger_index)) = (some 150, some 250) ∧
    List.Perm ((specWindowA 150 200 c5Aldous).map (·.transaction))
      ((specWindowP 150 200 c5P2p).map (·.tx_blob)) ∧
    List.Perm ((specWindowA 150 200 c5Aldous).map (·.metadata))
      ((specWindowP 150 200 c5P2p).map (·.meta)) ∧
    List.Perm ((specWindowA 150 200 c5Aldous).map (·.ledger_sequence))
      ((specWindowP 150 200 c5P2p).map (·.ledger_index)) ∧
    compareAccountTx c5Aldous c5P2p = false := by
  refine ⟨by decide, by decide, by decide, by decide, by decide, ?_⟩
  cases hb : compareAccountTx c5Aldous c5P2p with
  | false => rfl
  | true =>
    exfalso
    exact absurd ((compareAccountTx_true_iff c5Aldous c5P2p).mp hb).1 (by decide)

/-- C5 (amended): compareAccountTx applies no overlap-window filtering:
it computes the maximum ledger of one side and the minimum of the other
only for diagnostics, and its verdict is Match exactly when the complete
multisets of transaction blobs, metadata blobs and ledger sequences of
the two sides coincide; sides that agree only on the overlap of their
ledger ranges are therefore reported as a mismatch. -/
theorem c5_amended_claim (aldous : List AldousAcctTx) (p2p : List P2pAcctTx) :
    compareAccountTx aldous p2p = true ↔
      List.Perm (p2p.map (·.tx_blob)) (aldous.map (·.transaction)) ∧
      List.Perm (p2p.map (·.meta)) (aldous.map (·.metadata)) ∧
      List.Perm (p2p.map (·.ledger_index)) (aldous.map (·.ledger_sequence)) :=
  compareAccountTx_true_iff aldous p2p

/-- C5 witness: two equal one-element sides compare as a match. -/
theorem c5_witness :
    compareAccountTx [⟨"tx1", "meta1", 7⟩] [⟨"tx1", "meta1", 7⟩] = true :=
  (c5_amended_claim [⟨"tx1", "meta1", 7⟩] [⟨"tx1", "meta1", 7⟩]).mpr
    ⟨by decide, by decide, by decide⟩

/-- A transaction event received on a live subscription stream, as
compared by compareObjects (test.py lines 881-898): the nested transaction
hash used as the sort key, and the rest of the event payload. -/
structure TxEvent where
  hash : String
  payload : Value
deriving DecidableEq

/-- The sort key order of compareObjects: comparison of the transaction
hash fields. -/
def hashLe (a b : TxEvent) : Prop := a.hash ≤ b.hash

instance : DecidableRel hashLe :=
  fun a b => inferInstanceAs (Decidable (a.hash ≤ b.hash))

/-- Python list.sort with the transaction-hash key: stable, modelled by
insertion sort on hashLe. -/
def sortByHash (l : List TxEvent) : List TxEvent :=
  l.insertionSort hashLe

/-- Embedding of the dedup loops of compareObjects (test.py lines
885-894): append each item to the filtered list unless an equal item is
already there, keeping first occurrences. -/
def pyDedup (acc : List TxEvent) : List TxEvent → List TxEvent
  | [] => acc
  | x :: xs => if x ∈ acc then pyDedup acc xs else pyDedup (acc ++ [x]) xs

/-- Embedding of the verdict of compareObjects (test.py lines 881-935):
both sides are sorted by transaction hash, deduplicated, and the verdict
is True exactly when the resulting lists are equal; every other control
path of the source returns False (or fails on its diagnostic printing),
never True. -/
def compareObjects (clio ripd : List TxEvent) : Bool :=
  decide (pyDedup [] (sortByHash clio) = pyDedup [] (sortByHash ripd))

/-- Helper: deduplication collapses an immediately repeated item. -/
theorem pyDedup_cons_cons (acc : List TxEvent) (x : TxEvent) (l : List TxEvent) :
    pyDedup acc (x :: x :: l) = pyDedup acc (x :: l) := by
  by_cases h : x ∈ acc
  · simp [pyDedup, h]
  · simp [pyDedup, h]

/-- Helper: inserting the same item twice and deduplicating gives the same
result as inserting it once, for any accumulator. -/
theorem pyDedup_orderedInsert_twice (x : TxEvent) :
    ∀ (l acc : List TxEvent),
      pyDedup acc (List.orderedInsert hashLe x (List.orderedInsert hashLe x l)) =
        pyDedup acc (List.orderedInsert hashLe x l) := by
  intro l
  induction l with
  | nil =>
    intro acc
    simp only [List.orderedInsert]
    rw [if_pos (show hashLe x x from le_refl _)]
    exact pyDedup_cons_cons acc x []
  | cons b l ih =>
    intro acc
    by_cases hxb : hashLe x b
    · simp only [List.orderedInsert, if_pos hxb]
      rw [if_pos (show hashLe x x from le_refl _)]
      exact pyDedup_cons_cons acc x (b :: l)
    · simp only [List.orderedInsert, if_neg hxb]
      simp only [pyDedup]
      by_cases hb : b ∈ acc
      · rw [if_pos hb, if_pos hb]
        exact ih acc
      · rw [if_neg hb, if_neg hb]
        exact ih (acc ++ [b])

/-- C6: compareObjects is idempotent under duplication: a side holding the
item X twice and Y once compares as a match against a side holding X once
and Y once, for every pair of items, because both sides are sorted by the
transaction-hash key and deduplicated before the equality test. -/
theorem c6_dedup_idempotent (X Y : TxEvent) :
    compareObjects [X, X, Y] [X, Y] = true := by
  have h : pyDedup [] (sortByHash [X, X, Y]) = pyDedup [] (sortByHash [X, Y]) := by
    simp only [sortByHash, List.insertionSort]
    exact pyDedup_orderedInsert_twice X (List.orderedInsert hashLe Y []) []
  simp [compareObjects, h]

/-- A ledger object record of a ledger_data response in binary mode:
fields index and data. -/
structure LDObject where
  index : String
  data : String
deriving DecidableEq

/-- The contents of a result-wrapped ledger_data response: the state list
and an optional marker. -/
structure LDResult where
  state : List LDObject
  marker : Option String
deriving DecidableEq

/-- A decoded ledger_data response: an optional error field, an optional
result wrapper, the unwrapped objects list used when no result wrapper is
present, and an optional top-level cursor. -/
structure LDResponse where
  error : Option String
  result : Option LDResult
  objects : List LDObject
  cursor : Option String
deriving DecidableEq

/-- One receive outcome of the transport: the connection-closed error or a
decoded message. -/
inductive FetchOutcome where
  | closed
  | msg (r : LDResponse)

/-- A ledger_data request as sent by ledger_data_full: the marker (cursor)
attached, if any, and the page-size limit. -/
structure LDRequest where
  marker : Option String
  limit : Int
deriving DecidableEq

/-- The accumulated crawl state: the Python dict from object index to
object data, in insertion order. -/
abbrev LDState := List (String × String)

/-- Python dict assignment state key equals data: overwrite in place when
the key exists, append otherwise. -/
def dictInsert (st : LDState) (k v : String) : LDState :=
  if st.any (fun p => p.1 == k) then
    st.map (fun p => if p.1 == k then (k, v) else p)
  else st ++ [(k, v)]

/-- The characters of a data blob at positions 2 to 5, modelling the
Python slice data[2:6] used for the type filter. -/
def slice26 (s : String) : String :=
  String.mk ((s.data.drop 2).take 4)

/-- Whether ledger_data_full keeps a binary object under the optional type
filter (test.py line 519): kept when no filter is given or the slice of
the data blob equals the filter. -/
def ldKeep (typ : Option String) (x : LDObject) : Bool :=
  match typ with
  | none => true
  | some t => slice26 x.data == t

/-- The objects list of a ledger_data response (test.py lines 512-516):
the state of the result wrapper when present, the top-level objects
otherwise. -/
def ldObjects (r : LDResponse) : List LDObject :=
  match r.result with
  | some res => res.state
  | none => r.objects

/-- Accumulation of one page into the crawl state (test.py lines
517-524, binary mode): each kept object is stored under its index. -/
def ldAccumulate (typ : Option String) (st : LDState) (objs : List LDObject) : LDState :=
  objs.foldl (fun acc x => if ldKeep typ x then dictInsert acc x.index x.data else acc) st

/-- The continuation the crawler reads from a response (test.py lines
530-538): the top-level cursor when present, else the marker inside the
result wrapper, else nothing. -/
def respMarker (r : LDResponse) : Option String :=
  match r.cursor with
  | some c => some c
  | none =>
    match r.result with
    | some res => res.marker
    | none => none

/-- How a run of the ledger_data_full loop ended, together with the trace
of requests it sent: done models the return on a missing continuation,
early the return on the count ceiling, closed the connection-closed
handler (which returns None, losing the state), and outOfFuel a run still
looping after the given number of iterations. -/
inductive CrawlOutcome where
  | done (requests : List LDRequest) (st : LDState)
  | early (requests : List LDRequest) (st : LDState)
  | closed (requests : List LDRequest)
  | outOfFuel (requests : List LDRequest) (st : LDState)
deriving DecidableEq

/-- The requests a crawl outcome sent. -/
def CrawlOutcome.requests : CrawlOutcome → List LDRequest
  | .done reqs _ => reqs
  | .early reqs _ => reqs
  | .closed reqs => reqs
  | .outOfFuel reqs _ => reqs

/-- The state a crawl outcome returned to the caller: nothing on the
connection-closed path, the accumulated dict otherwise. -/
def CrawlOutcome.stateList : CrawlOutcome → LDState
  | .done _ st => st
  | .early _ st => st
  | .closed _ => []
  | .outOfFuel _ st => st

/-- Whether the loop has terminated (is not still iterating). -/
def CrawlOutcome.finished : CrawlOutcome → Bool
  | .outOfFuel _ _ => false
  | _ => true

/-- Embedding of the while loop of ledger_data_full (test.py lines
496-538) in binary mode: the response to the i-th request is resp i; each
iteration sends one request carrying the current marker, retries on a
response with an error field leaving marker and state unchanged, else
accumulates the page, returns early when a count ceiling is given and the
state size exceeds it, continues while a continuation is present and
returns the state when it is not. The fuel argument bounds how many
iterations are examined; the loop itself has no bound. -/
def ledger_data_full_go (resp : Nat → FetchOutcome) (limit : Int) (typ : Option String)
    (count : Int) : Nat → Nat → Option String → List LDRequest → LDState → CrawlOutcome
  | 0, _, _, reqs, st => .outOfFuel reqs st
  | fuel + 1, i, marker, reqs, st =>
    match resp i with
    | .closed => .closed (reqs ++ [⟨marker, limit⟩])
    | .msg r =>
      let reqs' := reqs ++ [⟨marker, limit⟩]
      if r.error.isSome then
        ledger_data_full_go resp limit typ count fuel (i + 1) marker reqs' st
      else
        let st' := ldAccumulate typ st (ldObjects r)
        if count ≠ -1 ∧ count < (st'.length : Int) then .early reqs' st'
        else
          match respMarker r with
          | some m => ledger_data_full_go resp limit typ count fuel (i + 1) (some m) reqs' st'
          | none => .done reqs' st'

/-- Embedding of ledger_data_full (test.py lines 489-542): the requested
limit is raised to 2048 when below it, then the loop runs from the given
initial marker with an empty state. -/
def ledger_data_full (resp : Nat → FetchOutcome) (limit : Int) (typ : Option String)
    (count : Int) (marker0 : Option String) (fuel : Nat) : CrawlOutcome :=
  let limit' := if limit < 2048 then 2048 else limit
  ledger_data_full_go resp limit' typ count fuel 0 marker0 [] []

/-- A mock server that answers every request with an empty page carrying
the same continuation cursor, so the cursor that produced a fetch is
returned again by that fetch from the second request on. -/
def c2Stream : Nat → FetchOutcome := fun _ =>
  .msg { error := none, result := none, objects := [], cursor := some "REPEATING" }

/-- Helper: one iteration of the loop against c2Stream just recurses with
the repeated cursor. -/
theorem c2_step (limit : Int) (typ : Option String) (n i : Nat) (marker : Option String)
    (reqs : List LDRequest) (st : LDState) :
    ledger_data_full_go c2Stream limit typ (-1) (n + 1) i marker reqs st =
      ledger_data_full_go c2Stream limit typ (-1) n (i + 1) (some "REPEATING")
        (reqs ++ [⟨marker, limit⟩]) st :=
  rfl

/-- Helper: against c2Stream the loop never terminates, whatever the
iteration bound. -/
theorem ledger_data_full_go_c2_spin (limit : Int) (typ : Option String) :
    ∀ (fuel i : Nat) (marker : Option String) (reqs : List LDRequest) (st : LDState),
      (ledger_data_full_go c2Stream limit typ (-1) fuel i marker reqs st).finished = false := by
  intro fuel
  induction fuel with
  | zero => intro i marker reqs st; rfl
  | succ n ih =>
    intro i marker reqs st
    rw [c2_step]
    exact ih (i + 1) (some "REPEATING") (reqs ++ [⟨marker, limit⟩]) st

/-- C2 (code model): ledger_data_full never compares a returned cursor
with the cursor that produced the fetch; against a server that returns the
identical cursor on every page the crawl never terminates for any
iteration bound, and the request trace at bound four shows it issuing two
further fetches with the repeated cursor after having observed the
repetition, with no loop-detection error of any kind. -/
theorem c2_no_loop_detection :
    (∀ fuel, (ledger_data_full c2Stream 2048 none (-1) none fuel).finished = false) ∧
    (ledger_data_full c2Stream 2048 none (-1) none 4).requests =
      [⟨none, 2048⟩, ⟨some "REPEATING", 2048⟩, ⟨some "REPEATING", 2048⟩,
        ⟨some "REPEATING", 2048⟩] := by
  constructor
  · intro fuel
    exact ledger_data_full_go_c2_spin _ none fuel 0 none [] []
  · decide

/-- A mock server whose every response carries an explicit error field. -/
def c4Stream : Nat → FetchOutcome := fun _ =>
  .msg { error := some "someError", result := none, objects := [], cursor := none }

/-- Helper: one iteration of the loop against c4Stream retries with the
same marker and unchanged state. -/
theorem c4_step (limit : Int) (typ : Option String) (count : Int) (n i : Nat)
    (marker : Option String) (reqs : List LDRequest) (st : LDState) :
    ledger_data_full_go c4Stream limit typ count (n + 1) i marker reqs st =
      ledger_data_full_go c4Stream limit typ count n (i + 1) marker
        (reqs ++ [⟨marker, limit⟩]) st :=
  rfl

/-- Helper: against c4Stream the loop never terminates, whatever the
iteration bound. -/
theorem ledger_data_full_go_c4_spin (limit : Int) (typ : Option String) (count : Int) :
    ∀ (fuel i : Nat) (marker : Option String) (reqs : List LDRequest) (st : LDState),
      (ledger_data_full_go c4Stream limit typ count fuel i marker reqs st).finished = false := by
  intro fuel
  induction fuel with
  | zero => intro i marker reqs st; rfl
  | succ n ih =>
    intro i marker reqs st
    rw [c4_step]
    exact ih (i + 1) marker (reqs ++ [⟨marker, limit⟩]) st

/-- C4 (code model): on a response carrying an error field,
ledger_data_full just continues the loop with the same marker; against a
persistently erroring server the crawl never terminates for any iteration
bound and never escalates, and at bound five the trace is five identical
requests, so the retry count is unbounded. -/
theorem c4_unbounded_retry :
    (∀ fuel, (ledger_data_full c4Stream 2048 none (-1) none fuel).finished = false) ∧
    (ledger_data_full c4Stream 2048 none (-1) none 5).requests =
      List.replicate 5 ⟨none, 2048⟩ := by
  constructor
  · intro fuel
    exact ledger_data_full_go_c4_spin _ none (-1) fuel 0 none [] []
  · decide

/-- Helper: membership in a request trace extended by one request with the
loop limit. -/
theorem mem_append_req {req : LDRequest} {reqs : List LDRequest} {marker : Option String}
    {limit : Int} (h : req ∈ reqs ++ [⟨marker, limit⟩]) : req ∈ reqs ∨ req.limit = limit := by
  rcases List.mem_append.mp h with h1 | h1
  · exact Or.inl h1
  · rcases List.mem_singleton.mp h1 with rfl
    exact Or.inr rfl

/-- Helper: weakening of the alternative through one trace extension. -/
theorem mem_append_req_or {req : LDRequest} {reqs : List LDRequest} {marker : Option String}
    {limit : Int} (h : req ∈ reqs ++ [⟨marker, limit⟩] ∨ req.limit = limit) :
    req ∈ reqs ∨ req.limit = limit := by
  rcases h with h1 | h1
  · exact mem_append_req h1
  · exact Or.inr h1

/-- Helper: every request the loop sends beyond the incoming trace carries
the loop limit. -/
theorem ledger_data_full_go_limit (resp : Nat → FetchOutcome) (limit : Int)
    (typ : Option String) (count : Int) :
    ∀ (fuel i : Nat) (marker : Option String) (reqs : List LDRequest) (st : LDState)
      (req : LDRequest),
      req ∈ (ledger_data_full_go resp limit typ count fuel i marker reqs st).requests →
      req ∈ reqs ∨ req.limit = limit := by
  intro fuel
  induction fuel with
  | zero =>
    intro i marker reqs st req h
    exact Or.inl h
  | succ n ih =>
    intro i marker reqs st req h
    rw [ledger_data_full_go] at h
    cases hr : resp i with
    | closed =>
      rw [hr] at h
      exact mem_append_req h
    | msg r =>
      rw [hr] at h
      dsimp only at h
      by_cases he : r.error.isSome = true
      · rw [if_pos he] at h
        exact mem_append_req_or (ih (i + 1) marker (reqs ++ [⟨marker, limit⟩]) st req h)
      · rw [if_neg he] at h
        by_cases hc : count ≠ -1 ∧ count < ((ldAccumulate typ st (ldObjects r)).length : Int)
        · rw [if_pos hc] at h
          exact mem_append_req h
        · rw [if_neg hc] at h
          cases hm : respMarker r with
          | some m =>
            rw [hm] at h
            exact mem_append_req_or
              (ih (i + 1) (some m) (reqs ++ [⟨marker, limit⟩])
                (ldAccumulate typ st (ldObjects r)) req h)
          | none =>
            rw [hm] at h
            exact mem_append_req h

/-- Helper: when the loop returns through the count-ceiling branch, the
returned state holds strictly more than count items. -/
theorem ledger_data_full_go_early (resp : Nat → FetchOutcome) (limit : Int)
    (typ : Option String) (count : Int) :
    ∀ (fuel i : Nat) (marker : Option String) (reqs : List LDRequest) (st : LDState)
      (reqs' : List LDRequest) (st' : LDState),
      ledger_data_full_go resp limit typ count fuel i marker reqs st =
        CrawlOutcome.early reqs' st' →
      count ≠ -1 ∧ count < (st'.length : Int) := by
  intro fuel
  induction fuel with
  | zero =>
    intro i marker reqs st reqs' st' h
    exact absurd h (by simp [ledger_data_full_go])
  | succ n ih =>
    intro i marker reqs st reqs' st' h
    rw [ledger_data_full_go] at h
    cases hr : resp i with
    | closed =>
      rw [hr] at h
      exact absurd h (by simp)
    | msg r =>
      rw [hr] at h
      dsimp only at h
      by_cases he : r.error.isSome = true
      · rw [if_pos he] at h
        exact ih (i + 1) marker (reqs ++ [⟨marker, limit⟩]) st reqs' st' h
      · rw [if_neg he] at h
        by_cases hc : count ≠ -1 ∧ count < ((ldAccumulate typ st (ldObjects r)).length : Int)
        · rw [if_pos hc] at h
          obtain ⟨-, h2⟩ := CrawlOutcome.early.inj h
          exact h2 ▸ hc
        · rw [if_neg hc] at h
          cases hm : respMarker r with
          | some m =>
            rw [hm] at h
            exact ih (i + 1) (some m) (reqs ++ [⟨marker, limit⟩])
              (ldAccumulate typ st (ldObjects r)) reqs' st' h
          | none =>
            rw [hm] at h
            exact absurd h (by simp)

/-- A mock server answering one page of a single object with no
continuation. -/
def c10Stream : Nat → FetchOutcome := fun _ =>
  .msg { error := none, result := none, objects := [⟨"K1", "DATA1"⟩], cursor := none }

/-- C10 counterexample: with requested limit 200 and count ceiling 5, the
crawl against c10Stream returns normally after one request (which was sent
with the limit raised to 2048) holding a single item, so the crawl does
return while the accumulated state holds five or fewer items, contrary to
the claim that it returns only once the state holds strictly more than
the requested count. -/
theorem c10_counterexample :
    ledger_data_full c10Stream 200 none 5 none 3 =
      CrawlOutcome.done [⟨none, 2048⟩] [("K1", "DATA1")] ∧
    ¬ (5 : Int) < (([("K1", "DATA1")] : LDState).length : Int) := by
  exact ⟨by decide, by decide⟩

/-- C10 (amended): ledger_data_full raises a requested limit below 2048 to
2048 before the first request, so every request it sends carries a limit
of at least 2048; and whenever the crawl returns through the result-count
ceiling, the returned state holds strictly more than the requested count,
so that path can only overshoot the count; the crawl can still return
with count or fewer items when a response carries no continuation. -/
theorem c10_amended_claim :
    (∀ (resp : Nat → FetchOutcome) (limit : Int) (typ : Option String) (count : Int)
      (marker0 : Option String) (fuel : Nat) (req : LDRequest),
      req ∈ (ledger_data_full resp limit typ count marker0 fuel).requests →
      2048 ≤ req.limit) ∧
    (∀ (resp : Nat → FetchOutcome) (limit : Int) (typ : Option String) (count : Int)
      (marker0 : Option String) (fuel : Nat) (reqs : List LDRequest) (st : LDState),
      ledger_data_full resp limit typ count marker0 fuel = CrawlOutcome.early reqs st →
      count ≠ -1 ∧ count < (st.length : Int)) := by
  constructor
  · intro resp limit typ count marker0 fuel req h
    have h2 := ledger_data_full_go_limit resp (if limit < 2048 then 2048 else limit) typ count
      fuel 0 marker0 [] [] req h
    rcases h2 with h3 | h3
    · exact absurd h3 (List.not_mem_nil req)
    · rw [h3]
      by_cases hl : limit < 2048
      · rw [if_pos hl]
      · rw [if_neg hl]
        exact le_of_not_lt hl
  · intro resp limit typ count marker0 fuel reqs st h
    exact ledger_data_full_go_early resp (if limit < 2048 then 2048 else limit) typ count
      fuel 0 marker0 [] [] reqs st h

/-- A mock server answering six distinct objects per page with a
continuation cursor. -/
def c10EarlyStream : Nat → FetchOutcome := fun _ =>
  .msg { error := none, result := none,
         objects := [⟨"K1", "D"⟩, ⟨"K2", "D"⟩, ⟨"K3", "D"⟩, ⟨"K4", "D"⟩, ⟨"K5", "D"⟩,
           ⟨"K6", "D"⟩],
         cursor := some "M" }

/-- C10 witness: the limit bound applied to the request actually sent by
the c10Stream run, and the ceiling bound applied to a run that stops early
with six items against a ceiling of five. -/
theorem c10_witness :
    2048 ≤ (LDRequest.mk none 2048).limit ∧
    ((5 : Int) ≠ -1 ∧
      (5 : Int) < (((ledger_data_full c10EarlyStream 200 none 5 none 2).stateList).length : Int)) :=
  ⟨c10_amended_claim.1 c10Stream 200 none 5 none 3 ⟨none, 2048⟩ (by decide),
    c10_amended_claim.2 c10EarlyStream 200 none 5 none 2
      ((ledger_data_full c10EarlyStream 200 none 5 none 2).requests)
      ((ledger_data_full c10EarlyStream 200 none 5 none 2).stateList)
      (by decide)⟩

/-- The cursor object of an account_tx response: ledger_sequence and
transaction_index. -/
structure ATCursor where
  ledger_sequence : Int
  transaction_index : Int
deriving DecidableEq

/-- The marker object of an account_tx response: ledger and seq. -/
structure ATMarker where
  ledger : Int
  seq : Int
deriving DecidableEq

/-- The contents of a result-wrapped account_tx response: the transaction
list and an optional marker. -/
structure ATResult where
  transactions : List Value
  marker : Option ATMarker
deriving DecidableEq

/-- A decoded account_tx response: an optional result wrapper, the
unwrapped transactions list used when no wrapper is present, an optional
cursor and an optional top-level marker. -/
structure ATResponse where
  result : Option ATResult
  transactions : List Value
  cursor : Option ATCursor
  marker : Option ATMarker
deriving DecidableEq

/-- One receive outcome of the transport for account_tx_full. -/
inductive ATFetch where
  | closed
  | msg (r : ATResponse)

/-- How a run of the account_tx_full loop ended: finished models the
return of the accumulated results on a missing continuation, closed the
connection-closed handler (test.py lines 369-370), which only prints and
so makes the function return None, and outOfFuel a run still looping. -/
inductive ATOutcome where
  | finished (transactions : List Value)
  | closed
  | outOfFuel (transactions : List Value)
deriving DecidableEq

/-- What the caller receives from an ended run: the accumulated
transactions on the normal return, nothing on the connection-closed
path. -/
def ATOutcome.returnedTxns : ATOutcome → Option (List Value)
  | .finished t => some t
  | _ => none

/-- The transactions of one account_tx page (test.py lines 352-355): from
the result wrapper when present, top level otherwise. -/
def atTxns (r : ATResponse) : List Value :=
  match r.result with
  | some res => res.transactions
  | none => r.transactions

/-- The continuation marker account_tx_full reads from a response
(test.py lines 359-367): the top-level marker when present, else the
marker of the result wrapper; its absence ends the loop. -/
def atMarker (r : ATResponse) : Option ATMarker :=
  match r.marker with
  | some m => some m
  | none =>
    match r.result with
    | some res => res.marker
    | none => none

/-- Embedding of the while loop of account_tx_full (test.py lines
318-370): each iteration sends a request and receives the response to the
i-th request, resp i; a connection-closed error anywhere makes the whole
function return None, discarding the accumulated transactions; otherwise
the page is appended, the cursor is updated when present, and the loop
continues exactly while a marker is present, returning the accumulated
results when it is not. -/
def account_tx_full_go (resp : Nat → ATFetch) :
    Nat → Nat → Option ATCursor → Option ATMarker → List Value → ATOutcome
  | 0, _, _, _, txns => .outOfFuel txns
  | fuel + 1, i, cursor, marker, txns =>
    match resp i with
    | .closed => .closed
    | .msg r =>
      let txns' := txns ++ atTxns r
      let cursor' :=
        match r.cursor with
        | some c => some (ATCursor.mk c.ledger_sequence c.transaction_index)
        | none => cursor
      match atMarker r with
      | some m => account_tx_full_go resp fuel (i + 1) cursor' (some m) txns'
      | none => .finished txns'

/-- Embedding of account_tx_full: the loop from no cursor, no marker and
an empty result list. -/
def account_tx_full (resp : Nat → ATFetch) (fuel : Nat) : ATOutcome :=
  account_tx_full_go resp fuel 0 none none []

/-- The first page of the C3 scenario: one transaction and a marker. -/
def c3Resp1 : ATResponse :=
  { result := none, transactions := [Value.str "TX1"], cursor := none,
    marker := some ⟨3, 0⟩ }

/-- The C3 scenario: a successful first page followed by a connection
failure on the second fetch. -/
def c3Stream : Nat → ATFetch := fun i => if i = 0 then .msg c3Resp1 else .closed

/-- C3 counterexample: after accumulating the transaction TX1 from the
first page, the crawl hits a connection-closed error on the next fetch
and ends on the closed path, returning nothing to the caller: the
accumulated item is discarded, contrary to the claim that the partial
AggregateResult is returned. -/
theorem c3_counterexample :
    account_tx_full c3Stream 3 = ATOutcome.closed ∧
    ATOutcome.returnedTxns (account_tx_full c3Stream 3) = none ∧
    account_tx_full c3Stream 3 ≠ ATOutcome.finished [Value.str "TX1"] := by
  exact ⟨by decide, by decide, by decide⟩

/-- C3 (amended): whenever a fetch of account_tx_full fails with the
connection-closed error, the crawl terminates on the error path and
returns nothing (the Python function falls out of its exception handler
and returns None): the transactions accumulated before the failure are
discarded, never returned, whatever they were. -/
theorem c3_amended_claim (resp : Nat → ATFetch) (fuel i : Nat) (cursor : Option ATCursor)
    (marker : Option ATMarker) (txns : List Value) (h : resp i = ATFetch.closed) :
    account_tx_full_go resp (fuel + 1) i cursor marker txns = ATOutcome.closed ∧
    ATOutcome.returnedTxns (account_tx_full_go resp (fuel + 1) i cursor marker txns) = none := by
  rw [account_tx_full_go, h]
  exact ⟨rfl, rfl⟩

/-- C3 witness: the amended statement applied to a run whose next fetch
fails while one transaction is already accumulated. -/
theorem c3_witness :
    account_tx_full_go (fun _ => ATFetch.closed) 1 0 none none [Value.str "TX1"] =
      ATOutcome.closed :=
  (c3_amended_claim (fun _ => ATFetch.closed) 0 0 none none [Value.str "TX1"] rfl).1

/-- Embedding of the binary branch of ledger_data (test.py lines 460-473):
walks the objects of one response, collecting every index into keys and
every data blob into blobs, and printing bad key for an index whose
length is not 64; the record is collected whether or not it was flagged.
Returns ((keys, blobs), flagged indexes). -/
def ledger_data_binary : List LDObject → (List String × List String) × List String
  | [] => (([], []), [])
  | x :: rest =>
    let r := ledger_data_binary rest
    ((x.index :: r.1.1, x.data :: r.1.2),
      if x.index.length ≠ 64 then x.index :: r.2 else r.2)

/-- Modelled from the spec: a hexadecimal digit; the source never checks
characters, so this predicate exists only to state the claim that keys
are validated as hexadecimal. -/
def specHexChar (c : Char) : Bool :=
  "0123456789abcdefABCDEF".data.contains c

/-- Modelled from the spec: the claimed key invariant, exactly 64
hexadecimal characters; used only to state the claim. -/
def specHexKey (s : String) : Bool :=
  s.length == 64 && s.data.all specHexChar

/-- A 64-character key made of the non-hexadecimal character z. -/
def c7BadKey : String := String.mk (List.replicate 64 'z')

/-- C7 counterexample: a record whose key is 64 characters long but not
hexadecimal is collected into the result without any flag, so the
identity key is not checked to be hexadecimal, only its length is
checked. -/
theorem c7_counterexample :
    c7BadKey.length = 64 ∧
    specHexKey c7BadKey = false ∧
    (ledger_data_binary [⟨c7BadKey, "DATA"⟩]).2 = [] ∧
    (ledger_data_binary [⟨c7BadKey, "DATA"⟩]).1.1 = [c7BadKey] := by
  exact ⟨by decide, by decide, by decide, by decide⟩

/-- C7 (amended): during a binary ledger_data page every record is
collected into the returned keys and blobs in order, and exactly the
records whose key length differs from 64 are flagged as bad keys; the
characters of the key are not validated, and flagged records are still
collected. -/
theorem c7_amended_claim (objs : List LDObject) :
    (ledger_data_binary objs).1.1 = objs.map (fun x => x.index) ∧
    (ledger_data_binary objs).1.2 = objs.map (fun x => x.data) ∧
    (ledger_data_binary objs).2 =
      (objs.filter (fun x => decide (x.index.length ≠ 64))).map (fun x => x.index) := by
  induction objs with
  | nil => exact ⟨rfl, rfl, rfl⟩
  | cons x rest ih =>
    refine ⟨?_, ?_, ?_⟩
    · simp [ledger_data_binary, ih.1]
    · simp [ledger_data_binary, ih.2.1]
    · by_cases hx : x.index.length ≠ 64
      · simp [ledger_data_binary, List.filter_cons, hx, ih.2.2]
      · simp [ledger_data_binary, List.filter_cons, hx, ih.2.2]

end Clio
